import Mathlib

/-
Verification of the smart-pump-esp32 control firmware core against its
specification.  The C++ sources are shallowly embedded: each class becomes a
Lean structure, each method a pure function over that structure (with the
monotonic millisecond clock and raw sensor values passed in as explicit
inputs), and hardware side effects (buzzer, display, tare command, callbacks)
become an explicit list of effect events.  Weights (C++ float) are modelled as
exact rationals; times (unsigned long) as natural numbers.
-/

namespace SmartPump

/-! ## Configuration constants (config.h, Scale.cpp, Button.h, PumpController.h) -/

/-- config.h: CUP_VOLUME 250.0f -/
def CUP_VOLUME : ℚ := 250

/-- config.h: WEIGHT_HYST 20.0f -/
def WEIGHT_HYST : ℚ := 20

/-- config.h: MIN_WATER_LEVEL 500.0f -/
def MIN_WATER_LEVEL : ℚ := 500

/-- config.h: FULL_WATER_LEVEL 1700.0f -/
def FULL_WATER_LEVEL : ℚ := 1700

/-- config.h: DEBOUNCE_TIME 50 (ms) -/
def DEBOUNCE_TIME : ℕ := 50

/-- config.h: LONG_PRESS_TIME 3000 (ms) -/
def LONG_PRESS_TIME : ℕ := 3000

/-- config.h: VERY_LONG_PRESS_TIME 10000 (ms) -/
def VERY_LONG_PRESS_TIME : ℕ := 10000

/-- config.h: DOUBLE_CLICK_TIME 400 (ms), the inter-click gap -/
def DOUBLE_CLICK_TIME : ℕ := 400

/-- config.h: PUMP_TIMEOUT 120000 (ms) -/
def PUMP_TIMEOUT : ℕ := 120000

/-- config.h: NO_FLOW_TIMEOUT 5000 (ms) -/
def NO_FLOW_TIMEOUT : ℕ := 5000

/-- config.h: POWER_RELAY_COOLDOWN 2000 (ms) -/
def POWER_RELAY_COOLDOWN : ℕ := 2000

/-- config.h: SERVO_MOVE_TIME 1000 (ms) -/
def SERVO_MOVE_TIME : ℕ := 1000

/-- Button.h (served from data/script.js): HYSTERESIS_COUNT = 3 consecutive
confirmations required before a debounced level change is accepted. -/
def HYSTERESIS_COUNT : ℕ := 3

/-- Scale.h: STABLE_READINGS = 5, the circular sample buffer size -/
def STABLE_READINGS : ℕ := 5

/-- Scale.cpp: MAX_WEIGHT_JUMP 500.0f -/
def MAX_WEIGHT_JUMP : ℚ := 500

/-- Scale.cpp: DEFAULT_FACTOR 0.00042f, the compiled-in conversion factor -/
def DEFAULT_FACTOR : ℚ := 42 / 100000

/-- Scale.cpp: EEPROM_FLAG_VALUE 0xAA -/
def EEPROM_FLAG_VALUE : ℕ := 0xAA

/-! ## WeightSensor (Scale.cpp / Scale.h) -/

/-- State of the Scale object: the fields of class Scale (Scale.h) that the
filtering, calibration and EEPROM methods read or write.  The raw HX711
handle is external; its readings enter as explicit inputs. -/
structure ScaleState where
  emptyWeight : ℚ
  currentWeight : ℚ
  calibrationFactor : ℚ
  readings : List ℚ
  readIndex : ℕ
  isCalibrated : Bool
  factorCalibrated : Bool
  eepromAddr : ℤ
  deriving Repr, DecidableEq

/-- Scale::Scale() constructor: zeroed buffer, default factor, no calibration. -/
def scaleInit : ScaleState :=
  { emptyWeight := 0
    currentWeight := 0
    calibrationFactor := DEFAULT_FACTOR
    readings := List.replicate STABLE_READINGS 0
    readIndex := 0
    isCalibrated := false
    factorCalibrated := false
    eepromAddr := 0 }

/-- Inner loop of the insertion sort in Scale::update: insert a key into an
already sorted list, shifting past every element strictly greater than it. -/
def insertKey (key : ℚ) : List ℚ → List ℚ
  | [] => [key]
  | x :: xs => if x > key then key :: x :: xs else x :: insertKey key xs

/-- The insertion sort performed on the copied buffer in Scale::update. -/
def sortBuffer (l : List ℚ) : List ℚ :=
  l.foldl (fun acc k => insertKey k acc) []

/-- Scale::update takes sorted[STABLE_READINGS / 2] as the reported weight:
the middle element of the sorted 5-slot buffer. -/
def medianOfBuffer (l : List ℚ) : ℚ :=
  (sortBuffer l).getD (STABLE_READINGS / 2) 0

/-- Modelled from the spec for comparison only: the arithmetic mean the spec
says the filter does NOT compute. -/
def arithmeticMean (l : List ℚ) : ℚ :=
  l.sum / l.length

/-- Converted sample: raw * calibrationFactor, clamped at zero
(Scale.cpp lines 175-178). -/
def convertRaw (factor : ℚ) (raw : ℤ) : ℚ :=
  let newRaw : ℚ := (raw : ℚ) * factor
  if newRaw < 0 then 0 else newRaw

/-- Scale::update (Scale.cpp lines 169-204).  Inputs: availability of the
HX711 and the raw ADC value it would return.  Returns the new state and the
boolean result of update(). -/
def scaleUpdate (s : ScaleState) (avail : Bool) (raw : ℤ) : ScaleState × Bool :=
  if !avail then
    ({ s with currentWeight := 0 }, false)
  else
    let newRaw := convertRaw s.calibrationFactor raw
    if s.currentWeight > 0 ∧ |newRaw - s.currentWeight| > MAX_WEIGHT_JUMP then
      (s, true)
    else
      let readings := s.readings.set s.readIndex newRaw
      ({ s with
          readings := readings
          readIndex := (s.readIndex + 1) % STABLE_READINGS
          currentWeight := medianOfBuffer readings }, true)

/-- One polled tick of the scale, dropping the boolean result. -/
def scaleStep (s : ScaleState) (i : Bool × ℤ) : ScaleState :=
  (scaleUpdate s i.1 i.2).1

/-- Run Scale::update from the constructor state over a list of
(availability, raw sample) inputs: the reachable states of the filter. -/
def scaleRun (l : List (Bool × ℤ)) : ScaleState :=
  l.foldl scaleStep scaleInit

/-! ## Calibration record persistence (Scale.cpp EEPROM methods)

The EEPROM is the shared 512-byte array of the ESP32 EEPROM emulation
(EEPROM.begin(EEPROM_SIZE), config.h).  The Scale methods write a 13-byte
record into it at a base address: one validity byte at +0, the 4-byte
IEEE-754 image of the empty weight at +4, the 4-byte image of the factor at
+8, and one factor-validity byte at +12 (bytes +1..+3 are padding, never
written).  Records at bases fewer than 13 bytes apart therefore alias.
Weights are modelled as exact rationals, so the bit content of a float
image byte is abstract: a byte holds either an erased value, a plain byte
written by EEPROM.write, or the i-th byte of the image of a float value.
Reading bytes back as a float, or comparing a float-image byte against the
flag value, is deterministic in the real machine but depends on the IEEE
encoding; both are supplied by an explicit FloatABI parameter, except that
reassembling the four image bytes of one and the same float always yields
that float back. -/

/-- config.h: EEPROM_SIZE 512, the size the sketch passes to EEPROM.begin. -/
def EEPROM_SIZE : ℤ := 512

/-- One byte of the EEPROM: erased, a plain byte written by EEPROM.write,
or byte i (0-3) of the IEEE-754 image of a float stored by EEPROM.put. -/
inductive EByte where
  | erased
  | raw (b : ℕ)
  | fpart (w : ℚ) (i : ℕ)
  deriving Repr, DecidableEq

/-- The IEEE-754 specific operations the model keeps abstract: the byte
values of a float image (used when a flag comparison lands on a float-image
byte) and the float obtained by reinterpreting four arbitrary bytes (used
when EEPROM.get reads bytes that are not the intact image of one float). -/
structure FloatABI where
  byteOf : ℚ → ℕ → ℕ
  reassemble : EByte → EByte → EByte → EByte → ℚ

/-- EEPROMClass::write: a single byte store, dropped when the address is
outside the array. -/
def ebWrite (rom : ℤ → EByte) (a : ℤ) (b : ℕ) : ℤ → EByte :=
  if a < 0 ∨ a ≥ EEPROM_SIZE then rom
  else fun x => if x = a then .raw b else rom x

/-- EEPROMClass::put of a 4-byte float: stores the four image bytes,
dropped entirely when the 4-byte span does not fit in the array. -/
def ebPut (rom : ℤ → EByte) (a : ℤ) (w : ℚ) : ℤ → EByte :=
  if a < 0 ∨ a + 4 > EEPROM_SIZE then rom
  else fun x =>
    if x = a then .fpart w 0
    else if x = a + 1 then .fpart w 1
    else if x = a + 2 then .fpart w 2
    else if x = a + 3 then .fpart w 3
    else rom x

/-- EEPROMClass::read: an out-of-range read returns byte 0. -/
def ebRead (rom : ℤ → EByte) (a : ℤ) : EByte :=
  if 0 ≤ a ∧ a < EEPROM_SIZE then rom a else .raw 0

/-- Comparison of one EEPROM byte against EEPROM_FLAG_VALUE, as done by the
flag checks in Scale.cpp.  An erased byte never matches (erased flash reads
0x00 or 0xFF, not 0xAA); a float-image byte is resolved by the ABI. -/
def flagHit (abi : FloatABI) : EByte → Bool
  | .erased => false
  | .raw b => b == EEPROM_FLAG_VALUE
  | .fpart w i => abi.byteOf w i == EEPROM_FLAG_VALUE

/-- EEPROMClass::get of a 4-byte float at an in-range address: if the four
bytes are the intact image of one float, that float is recovered; any other
byte combination is reinterpreted by the ABI. -/
def ebGet (abi : FloatABI) (rom : ℤ → EByte) (a : ℤ) : ℚ :=
  match rom a, rom (a+1), rom (a+2), rom (a+3) with
  | .fpart w0 0, .fpart w1 1, .fpart w2 2, .fpart w3 3 =>
      if w1 = w0 ∧ w2 = w0 ∧ w3 = w0 then w0
      else abi.reassemble (.fpart w0 0) (.fpart w1 1) (.fpart w2 2) (.fpart w3 3)
  | b0, b1, b2, b3 => abi.reassemble b0 b1 b2 b3

/-- EEPROMClass::get with its bounds check: when the 4-byte span does not
fit, the destination variable keeps its previous value. -/
def ebGetAt (abi : FloatABI) (rom : ℤ → EByte) (a : ℤ) (old : ℚ) : ℚ :=
  if a < 0 ∨ a + 4 > EEPROM_SIZE then old else ebGet abi rom a

/-- Scale together with the shared EEPROM byte array it reads and writes. -/
structure ScaleEnv where
  st : ScaleState
  rom : ℤ → EByte

/-- Initial environment: constructor state over a fully erased EEPROM. -/
def scaleEnvInit : ScaleEnv :=
  { st := scaleInit, rom := fun _ => EByte.erased }

/-- Scale::saveCalibrationToEEPROM (Scale.cpp lines 228-239): flag byte at
addr, empty-weight image at addr+4, factor image at addr+8, factor flag
byte at addr+12, in source order. -/
def saveCalibrationToEEPROM (e : ScaleEnv) (addr : ℤ) : ScaleEnv :=
  if addr < 0 ∨ addr > 508 then e
  else
    { st := { e.st with eepromAddr := addr }
      rom :=
        ebWrite
          (ebPut
            (ebPut (ebWrite e.rom addr EEPROM_FLAG_VALUE) (addr + 4) e.st.emptyWeight)
            (addr + 8) e.st.calibrationFactor)
          (addr + 12)
          (if e.st.factorCalibrated then EEPROM_FLAG_VALUE else 0) }

/-- Scale::loadCalibrationFromEEPROM (Scale.cpp lines 241-265): reassembles
the record from the shared bytes at addr, addr+4..7, addr+8..11, addr+12. -/
def loadCalibrationFromEEPROM (abi : FloatABI) (e : ScaleEnv) (addr : ℤ) :
    ScaleEnv :=
  if addr < 0 ∨ addr > 508 then
    { e with st := { e.st with isCalibrated := false, factorCalibrated := false } }
  else
    if flagHit abi (ebRead e.rom addr) then
      { e with st := { e.st with
          eepromAddr := addr
          emptyWeight := ebGetAt abi e.rom (addr + 4) e.st.emptyWeight
          calibrationFactor := ebGetAt abi e.rom (addr + 8) e.st.calibrationFactor
          factorCalibrated := flagHit abi (ebRead e.rom (addr + 12))
          isCalibrated := true } }
    else
      { e with st := { e.st with
          eepromAddr := addr
          isCalibrated := false
          factorCalibrated := false
          emptyWeight := 0
          calibrationFactor := DEFAULT_FACTOR } }

/-- Scale::resetCalibration (Scale.cpp lines 267-282): clears the two flag
bytes and overwrites both float images at the remembered base address, in
source order (flag, factor flag, empty image, factor image). -/
def resetCalibration (e : ScaleEnv) : ScaleEnv :=
  let st := { e.st with
    isCalibrated := false
    factorCalibrated := false
    emptyWeight := 0
    calibrationFactor := DEFAULT_FACTOR }
  if 0 ≤ e.st.eepromAddr ∧ e.st.eepromAddr ≤ 508 then
    { st := st
      rom :=
        ebPut
          (ebPut (ebWrite (ebWrite e.rom e.st.eepromAddr 0) (e.st.eepromAddr + 12) 0)
            (e.st.eepromAddr + 4) 0)
          (e.st.eepromAddr + 8) DEFAULT_FACTOR }
  else { e with st := st }

/-- Scale::resetFactor (Scale.cpp lines 131-135). -/
def resetFactor (e : ScaleEnv) : ScaleEnv :=
  { e with st := { e.st with calibrationFactor := DEFAULT_FACTOR, factorCalibrated := false } }

/-- Scale::calibrateEmpty (Scale.cpp lines 138-143). -/
def calibrateEmpty (e : ScaleEnv) (w : ℚ) : ScaleEnv :=
  { e with st := { e.st with emptyWeight := w, isCalibrated := true } }

/-- Scale::calibrateFactor (Scale.cpp lines 118-129).  The averaged raw ADC
value measured from the sensor enters as an input. -/
def calibrateFactor (e : ScaleEnv) (knownWeight : ℚ) (rawValue : ℤ) : ScaleEnv :=
  if knownWeight ≤ 0 then e
  else
    { e with st := { e.st with
        calibrationFactor := knownWeight / (rawValue : ℚ)
        factorCalibrated := true } }

/-- The operations of the claimed reachable-state space of the calibration
record: EEPROM load and save, the two calibration procedures, and the two
resets, each applied after construction. -/
inductive ScaleOp where
  | load (addr : ℤ)
  | save (addr : ℤ)
  | calibEmpty (w : ℚ)
  | calibFactor (w : ℚ) (raw : ℤ)
  | rstFactor
  | rstCalibration

/-- Apply one operation to the scale-plus-EEPROM environment, for a fixed
float byte-encoding. -/
def applyOp (abi : FloatABI) (e : ScaleEnv) : ScaleOp → ScaleEnv
  | .load addr => loadCalibrationFromEEPROM abi e addr
  | .save addr => saveCalibrationToEEPROM e addr
  | .calibEmpty w => calibrateEmpty e w
  | .calibFactor w raw => calibrateFactor e w raw
  | .rstFactor => resetFactor e
  | .rstCalibration => resetCalibration e

/-- Run a sequence of operations from the freshly constructed state. -/
def runOps (abi : FloatABI) (ops : List ScaleOp) : ScaleEnv :=
  ops.foldl (applyOp abi) scaleEnvInit

/-- The calibration-record invariant claimed by the spec: an unset
factor-valid flag forces the compiled-in default factor, an unset
empty-weight-valid flag forces a zero empty weight. -/
def calibRecordInv (s : ScaleState) : Prop :=
  (s.factorCalibrated = false → s.calibrationFactor = DEFAULT_FACTOR) ∧
  (s.isCalibrated = false → s.emptyWeight = 0)

/-- Boolean check that every EEPROM load and save in an operation sequence
uses the fixed base address 0 — EEPROM_CALIB_ADDR in config.h, the only
base address the program ever passes — so records never alias in the
shared byte array. -/
def opsUseBaseZero (ops : List ScaleOp) : Bool :=
  ops.all fun op =>
    match op with
    | .load addr => addr == 0
    | .save addr => addr == 0
    | _ => true

/-- A concrete throwaway float byte-encoding used to instantiate closed
statements; the quantified theorems hold for every FloatABI. -/
def abiZero : FloatABI :=
  { byteOf := fun _ _ => 0, reassemble := fun _ _ _ _ => 0 }

/-! ## Shared enumerations (config.h) and effect events -/

/-- config.h: enum ServoState. -/
inductive ServoSt where
  | idle
  | moving
  | overKettle
  deriving Repr, DecidableEq

/-- config.h: enum ErrorType. -/
inductive ErrorType where
  | none
  | hx711Timeout
  | noFlow
  | fillTimeout
  deriving Repr, DecidableEq

/-- config.h: enum CalibrationStep. -/
inductive CalibrationStep where
  | waitRemove
  | waitPlace
  deriving Repr, DecidableEq

/-- The names of the controller states, as returned by State::getName. -/
inductive StName where
  | idle
  | filling
  | calibration
  | error
  deriving Repr, DecidableEq

/-- Observable side effects of the embedded methods: buzzer requests,
display requests, the tare command to the sensor, button-click consumption,
the registered callbacks, and the state-machine lifecycle hooks. -/
inductive Eff where
  | beepShort (count : ℕ)
  | beepLong (count : ℕ)
  | dispCalibMode (enabled : Bool)
  | dispCalibSuccess
  | dispCalibError
  | tareCmd
  | clickReset
  | multiClick (count : ℕ)
  | holdRelease (duration : ℕ)
  | enterHook (s : StName)
  | exitHook (s : StName)
  deriving Repr, DecidableEq

/-! ## ActuatorBank (PumpController.cpp) -/

/-- The relay and servo fields of class PumpController (PumpController.h).
The buzzer sequencer state is orthogonal to every claim here; beep requests
are recorded as effect events at their call sites instead. -/
structure Pump where
  pumpRelay : Bool
  powerRelay : Bool
  lastPowerToggle : ℕ
  servoCurrent : ServoSt
  servoTarget : ServoSt
  servoMoveStart : ℕ
  deriving Repr, DecidableEq

/-- PumpController constructor: everything off, servo idle. -/
def pumpInit : Pump :=
  { pumpRelay := false
    powerRelay := false
    lastPowerToggle := 0
    servoCurrent := .idle
    servoTarget := .idle
    servoMoveStart := 0 }

/-- PumpController::pumpOn. -/
def pumpOn (p : Pump) : Pump := { p with pumpRelay := true }

/-- PumpController::pumpOff. -/
def pumpOff (p : Pump) : Pump := { p with pumpRelay := false }

/-- PumpController::canTogglePowerRelay: cooldown guard on the power relay. -/
def canTogglePowerRelay (now : ℕ) (p : Pump) : Bool :=
  POWER_RELAY_COOLDOWN ≤ now - p.lastPowerToggle

/-- PumpController::powerOn: switches the kettle-power relay on only outside
the cooldown window. -/
def powerOn (now : ℕ) (p : Pump) : Pump :=
  if canTogglePowerRelay now p then
    { p with powerRelay := true, lastPowerToggle := now }
  else p

/-- PumpController::powerOff: switches the kettle-power relay off only
outside the cooldown window. -/
def powerOff (now : ℕ) (p : Pump) : Pump :=
  if canTogglePowerRelay now p then
    { p with powerRelay := false, lastPowerToggle := now }
  else p

/-- PumpController::setPowerRelay. -/
def setPowerRelay (now : ℕ) (state : Bool) (p : Pump) : Pump :=
  if state ∧ ¬p.powerRelay then powerOn now p
  else if ¬state ∧ p.powerRelay then powerOff now p
  else p

/-- PumpController::moveServoToKettle: a move request while already moving
is a no-op. -/
def moveServoToKettle (now : ℕ) (p : Pump) : Pump :=
  if p.servoCurrent = .moving then p
  else { p with servoTarget := .overKettle, servoCurrent := .moving, servoMoveStart := now }

/-- PumpController::moveServoToIdle: a move request while already moving is
a no-op. -/
def moveServoToIdle (now : ℕ) (p : Pump) : Pump :=
  if p.servoCurrent = .moving then p
  else { p with servoTarget := .idle, servoCurrent := .moving, servoMoveStart := now }

/-- PumpController::isServoInPosition. -/
def isServoInPosition (p : Pump) : Bool :=
  p.servoCurrent ≠ .moving

/-- PumpController::emergencyStop: pump off, then request servo-to-idle. -/
def emergencyStop (now : ℕ) (p : Pump) : Pump :=
  moveServoToIdle now (pumpOff p)

/-- PumpController::update: a moving servo resolves to its target once the
travel time has elapsed. -/
def pumpUpdate (now : ℕ) (p : Pump) : Pump :=
  if p.servoCurrent = .moving ∧ SERVO_MOVE_TIME ≤ now - p.servoMoveStart then
    { p with servoCurrent := p.servoTarget }
  else p

/-- ErrorState::enter fail-safe block (StateMachine.cpp lines 380-389):
pump relay off, kettle-power relay off, servo to idle. -/
def errorEnterPump (now : ℕ) (p : Pump) : Pump :=
  moveServoToIdle now (setPowerRelay now false (pumpOff p))

/-! ## Controller (StateMachine.cpp / StateMachine.h) -/

/-- The per-state data of the four State subclasses (StateMachine.h). -/
inductive StData where
  | idle (lastPowerCheckTime : ℕ) (pressedHandled : Bool)
  | filling (targetWeight startWeight : ℚ) (startTime : ℕ)
      (fillingInit emergencyStopFlag : Bool)
  | calibration (step : CalibrationStep) (pressedHandled : Bool)
  | error (err : ErrorType) (lastBeepTime : ℕ)
  deriving DecidableEq

/-- State::getName for each subclass. -/
def StData.name : StData → StName
  | .idle _ _ => .idle
  | .filling _ _ _ _ _ => .filling
  | .calibration _ _ => .calibration
  | .error _ _ => .error

/-- new IdleState() (constructor, StateMachine.cpp lines 24-28). -/
def newIdleState : StData := .idle 0 false

/-- new FillingState(target) (constructor, StateMachine.cpp lines 152-160). -/
def newFillingState (target : ℚ) : StData := .filling target 0 0 false false

/-- new CalibrationState() (constructor, StateMachine.cpp lines 302-305). -/
def newCalibrationState : StData := .calibration .waitRemove false

/-- new ErrorState(err) (constructor, StateMachine.cpp lines 375-378). -/
def newErrorState (e : ErrorType) : StData := .error e 0

/-- The fields of class StateMachine (StateMachine.h). -/
structure SM where
  current : Option StData
  next : Option StData
  pending : Bool
  stateEnterTime : ℕ
  currentError : ErrorType
  fillTarget : ℚ
  deriving DecidableEq

/-- StateMachine constructor: no current state, no pending transition. -/
def smInit : SM :=
  { current := none, next := none, pending := false,
    stateEnterTime := 0, currentError := .none, fillTarget := 0 }

/-- StateMachine::canTransitionTo (StateMachine.cpp lines 565-611), expressed
on state names exactly as the string-comparison chain in the source: no
current state allows anything; IDLE allows anything; FILLING and CALIBRATION
allow only IDLE or ERROR; ERROR allows only ERROR; anything else is denied. -/
def canTransitionToName (cur : Option StName) (nw : StName) : Bool :=
  match cur with
  | none => true
  | some c =>
    if c = .idle then true
    else if c = .filling then nw == .idle || nw == .error
    else if c = .calibration then nw == .idle || nw == .error
    else if c = .error then nw == .error
    else false

/-- Transition permission for a machine and a candidate new state object. -/
def canTransitionTo (sm : SM) (d : StData) : Bool :=
  canTransitionToName (sm.current.map StData.name) d.name

/-- The transition table as worded in the claim (for comparison with the
code's canTransitionTo): from Filling only Idle and Error, from Calibrating
only Idle and Error, from Error only Error, from Idle or the initial empty
state any state. -/
def claimAllowedTable : Option StName → StName → Bool
  | none, _ => true
  | some .idle, _ => true
  | some .filling, t => t == .idle || t == .error
  | some .calibration, t => t == .idle || t == .error
  | some .error, t => t == .error

/-- StateMachine::transitionTo (StateMachine.cpp lines 527-535): a denied
request returns with the machine untouched; an allowed one only records the
pending target (hooks run later, inside update). -/
def transitionTo (sm : SM) (d : StData) : SM :=
  if canTransitionTo sm d then { sm with next := some d, pending := true }
  else sm

/-- StateMachine::toIdle. -/
def toIdle (sm : SM) : SM := transitionTo sm newIdleState

/-- StateMachine::toFilling: records the fill target, then requests the
transition. -/
def toFilling (sm : SM) (target : ℚ) : SM :=
  transitionTo { sm with fillTarget := target } (newFillingState target)

/-- StateMachine::toCalibration. -/
def toCalibration (sm : SM) : SM := transitionTo sm newCalibrationState

/-- StateMachine::toError: records the error, then requests the transition. -/
def toError (sm : SM) (e : ErrorType) : SM :=
  transitionTo { sm with currentError := e } (newErrorState e)

/-- Scale::isKettlePresent (Scale.cpp lines 211-213). -/
def scaleIsKettlePresent (s : ScaleState) : Bool :=
  s.emptyWeight - WEIGHT_HYST ≤ s.currentWeight

/-- Scale::isReady (Scale.cpp lines 207-209); sensor liveness is an input. -/
def scaleIsReady (s : ScaleState) (avail : Bool) : Bool :=
  s.factorCalibrated && avail

/-- The controller with the components it drives: state machine, actuators,
and the weight-sensor state it reads. -/
structure Sys where
  sm : SM
  pump : Pump
  scale : ScaleState

/-- The current state name of a system. -/
def currentName (sys : Sys) : Option StName :=
  sys.sm.current.map StData.name

/-- The emergency-stop flag of the current state, when it is Filling. -/
def fillingFlagOf : Option StData → Option Bool
  | some (.filling _ _ _ _ f) => some f
  | _ => Option.none

/-- Exit hooks of the four states (IdleState::exit, FillingState::exit,
CalibrationState::exit, ErrorState::exit). -/
def stateExit (sys : Sys) (now : ℕ) (c : StData) : Sys × List Eff :=
  match c with
  | .idle _ _ => (sys, [.exitHook .idle])
  | .filling _ _ _ _ _ =>
      let p1 := pumpOff sys.pump
      let p2 := if p1.servoCurrent ≠ .idle then moveServoToIdle now p1 else p1
      ({ sys with pump := p2 }, [.exitHook .filling])
  | .calibration _ _ => (sys, [.exitHook .calibration, .dispCalibMode false])
  | .error _ _ => (sys, [.exitHook .error])

/-- Enter hooks of the four states (IdleState::enter, FillingState::enter,
CalibrationState::enter, ErrorState::enter), applied to the freshly swapped
current state. -/
def stateEnter (sys : Sys) (now : ℕ) : Sys × List Eff :=
  match sys.sm.current with
  | Option.none => (sys, [])
  | some (.idle lpct _) =>
      ({ sys with pump := pumpOff sys.pump,
                  sm := { sys.sm with current := some (.idle lpct false) } },
       [.enterHook .idle])
  | some (.filling t _ _ _ _) =>
      if ¬ scaleIsKettlePresent sys.scale then
        ({ sys with sm := toIdle sys.sm }, [.enterHook .filling, .beepShort 2])
      else
        let d := StData.filling t sys.scale.currentWeight now true false
        ({ sys with pump := moveServoToKettle now sys.pump,
                    sm := { sys.sm with current := some d } },
         [.enterHook .filling, .beepShort 1])
  | some (.calibration _ _) =>
      ({ sys with pump := setPowerRelay now false (pumpOff sys.pump),
                  sm := { sys.sm with current := some (.calibration .waitRemove false) } },
       [.enterHook .calibration, .dispCalibMode true])
  | some (.error e _) =>
      ({ sys with pump := errorEnterPump now sys.pump,
                  sm := { sys.sm with current := some (.error e now) } },
       [.enterHook .error])

/-- The pending-transition block at the head of StateMachine::update
(StateMachine.cpp lines 538-552): run the exit hook of the old state, swap
in the pending state, run its enter hook.  The remainder of update
(currentState->update) is the per-state tick and is modelled separately. -/
def smCommit (sys : Sys) (now : ℕ) : Sys × List Eff :=
  if sys.sm.pending then
    match sys.sm.next with
    | some d =>
        let (sys1, evs1) :=
          match sys.sm.current with
          | some c => stateExit sys now c
          | Option.none => (sys, [])
        let sys2 := { sys1 with sm := { sys1.sm with
          current := some d, next := Option.none, pending := false,
          stateEnterTime := now } }
        let (sys3, evs2) := stateEnter sys2 now
        (sys3, evs1 ++ evs2)
    | Option.none => (sys, [])
  else (sys, [])

/-- StateMachine::emergencyStopFilling (StateMachine.cpp lines 413-420):
only in FILLING, stop the pump hardware at once, beep three times, request
the transition to Idle. -/
def emergencyStopFilling (sys : Sys) (now : ℕ) : Sys × List Eff :=
  match sys.sm.current with
  | some c =>
      if c.name = .filling then
        ({ sys with pump := emergencyStop now sys.pump, sm := toIdle sys.sm },
         [.beepShort 3])
      else (sys, [])
  | Option.none => (sys, [])

/-- StateMachine::handleMqttCommand (StateMachine.cpp lines 422-525). -/
def handleMqttCommand (sys : Sys) (now : ℕ) (avail : Bool) (mode : ℤ) :
    Sys × List Eff :=
  if mode < 1 ∨ mode > 8 then (sys, [.beepShort 2])
  else
    match sys.sm.current with
    | Option.none => (sys, [])
    | some c =>
      if mode = 8 then
        if c.name = .filling then emergencyStopFilling sys now
        else (sys, [.beepShort 2])
      else if c.name ≠ .idle then (sys, [.beepShort 2])
      else if ¬(scaleIsReady sys.scale avail ∧ scaleIsKettlePresent sys.scale) then
        (sys, [.beepShort 2])
      else
        let cw0 := sys.scale.currentWeight - sys.scale.emptyWeight
        let currentWater := if cw0 < 0 then 0 else cw0
        let maxWeight := sys.scale.emptyWeight + FULL_WATER_LEVEL
        let target? : Option ℚ :=
          if mode = 1 then
            some (if currentWater < MIN_WATER_LEVEL then
                    sys.scale.emptyWeight + MIN_WATER_LEVEL
                  else sys.scale.currentWeight + CUP_VOLUME)
          else if mode = 2 then some (sys.scale.emptyWeight + 500)
          else if mode = 3 then some (sys.scale.emptyWeight + 750)
          else if mode = 4 then some (sys.scale.emptyWeight + 1000)
          else if mode = 5 then some (sys.scale.emptyWeight + 1250)
          else if mode = 6 then some (sys.scale.emptyWeight + 1500)
          else if mode = 7 then some (sys.scale.emptyWeight + FULL_WATER_LEVEL)
          else Option.none
        match target? with
        | Option.none => (sys, [.beepShort 2])
        | some target0 =>
          let target := if target0 > maxWeight then maxWeight else target0
          if target ≤ sys.scale.currentWeight + 10 then (sys, [.beepShort 2])
          else ({ sys with sm := toFilling sys.sm target }, [.beepShort 1])

/-- FillingState::handleButton (StateMachine.cpp lines 288-299): a long
press latches the emergency-stop flag, beeps three times and consumes the
clicks. -/
def fillingHandleButton (d : StData) (longPress : Bool) : StData × List Eff :=
  match d with
  | .filling t sw st init _ =>
      if longPress then (.filling t sw st init true, [.beepShort 3, .clickReset])
      else (d, [])
  | _ => (d, [])

/-- CalibrationState::handleButton (StateMachine.cpp lines 337-368), over
the calibration sub-state, the press-handled latch, the current button level
and the scale-plus-EEPROM environment. -/
def calibHandleButton (step : CalibrationStep) (pressedHandled : Bool)
    (pressed : Bool) (env : ScaleEnv) :
    CalibrationStep × Bool × ScaleEnv × List Eff :=
  let ph := if ¬pressed then false else pressedHandled
  if pressed ∧ ¬ph then
    match step with
    | .waitRemove => (.waitPlace, true, env, [.tareCmd, .clickReset])
    | .waitPlace =>
        let w := env.st.currentWeight
        if 100 < w ∧ w < 5000 then
          let env2 := saveCalibrationToEEPROM (calibrateEmpty env w) 0
          (.waitPlace, true, env2, [.beepShort 1, .dispCalibSuccess, .clickReset])
        else
          (.waitPlace, true, env, [.beepLong 1, .dispCalibError, .clickReset])
  else (step, ph, env, [])

/-! ## InputGesture (Button.cpp / Button.h)

Raw levels are booleans with true = HIGH (released, pull-up) and
false = LOW (pressed).  The hold-release and multi-click callbacks are
recorded as effect events. -/

/-- The fields of class Button (Button.h) used by tick and the getters. -/
structure BtnState where
  lastRawState : Bool
  lastDebounceTime : ℕ
  lastStableState : Bool
  stableStartTime : ℕ
  stableConfirmCount : ℕ
  lastState : Bool
  pressStartTime : ℕ
  clickCount : ℕ
  lastClickTime : ℕ
  longReported : Bool
  veryLongReported : Bool
  holdActive : Bool
  holdStartTime : ℕ
  deriving Repr, DecidableEq

/-- Button constructor (Button.cpp lines 7-41): released, all counters zero. -/
def btnInit : BtnState :=
  { lastRawState := true
    lastDebounceTime := 0
    lastStableState := true
    stableStartTime := 0
    stableConfirmCount := 0
    lastState := true
    pressStartTime := 0
    clickCount := 0
    lastClickTime := 0
    longReported := false
    veryLongReported := false
    holdActive := false
    holdStartTime := 0 }

/-- The confirmed-release block of Button::tick (Button.cpp lines 87-113):
classify the completed press by its duration. -/
def btnOnRelease (s : BtnState) (now : ℕ) : BtnState × List Eff :=
  if s.pressStartTime ≠ 0 then
    let pressDuration := now - s.pressStartTime
    let (s1, evs) :=
      if pressDuration > DEBOUNCE_TIME * 2 then
        let (s2, evs2) :=
          if pressDuration < LONG_PRESS_TIME then
            ({ s with clickCount := s.clickCount + 1, lastClickTime := now },
             ([] : List Eff))
          else (s, [])
        if s.holdActive ∧ pressDuration ≥ 5000 then
          (s2, evs2 ++ [.holdRelease pressDuration])
        else (s2, evs2)
      else (s, [])
    ({ s1 with pressStartTime := 0, holdActive := false }, evs)
  else (s, [])

/-- Button::tick (Button.cpp lines 43-132): debounce with hysteresis
confirmation, press/release detection, click accumulation, and the
inter-click-gap timeout that finalizes a click run. -/
def buttonTick (s : BtnState) (raw : Bool) (now : ℕ) : BtnState × List Eff :=
  let s1 :=
    if raw ≠ s.lastRawState then
      { s with lastDebounceTime := now, lastRawState := raw, stableConfirmCount := 0 }
    else s
  let (s2, evs1) :=
    if now - s1.lastDebounceTime > DEBOUNCE_TIME then
      let c := if s1.stableConfirmCount < HYSTERESIS_COUNT then
                 s1.stableConfirmCount + 1
               else s1.stableConfirmCount
      let s1b := { s1 with stableConfirmCount := c }
      if c ≥ HYSTERESIS_COUNT ∧ raw ≠ s1b.lastStableState then
        let s1c := { s1b with lastStableState := raw, stableStartTime := now }
        if raw = false then
          if s1c.pressStartTime = 0 then
            ({ s1c with pressStartTime := now, longReported := false,
                        veryLongReported := false, holdActive := true,
                        holdStartTime := now }, ([] : List Eff))
          else (s1c, [])
        else btnOnRelease s1c now
      else (s1b, [])
    else (s1, [])
  let s3 := { s2 with lastState := s2.lastStableState }
  if s3.clickCount > 0 ∧ now - s3.lastClickTime > DOUBLE_CLICK_TIME then
    ({ s3 with clickCount := 0 }, evs1 ++ [.multiClick s3.clickCount])
  else (s3, evs1)

/-- Button::isPressed. -/
def isPressed (s : BtnState) : Bool := s.lastStableState = false

/-- Button::isSingleClick. -/
def isSingleClick (s : BtnState) : Bool := s.clickCount == 1

/-- Button::isDoubleClick. -/
def isDoubleClick (s : BtnState) : Bool := s.clickCount == 2

/-- Button::isTripleClick. -/
def isTripleClick (s : BtnState) : Bool := s.clickCount == 3

/-- Button::resetClicks. -/
def resetClicks (s : BtnState) : BtnState := { s with clickCount := 0 }

/-- Run a sequence of ticks, each a (raw level, time) pair, accumulating the
emitted events. -/
def runButton (s : BtnState) (l : List (Bool × ℕ)) : BtnState × List Eff :=
  l.foldl (fun acc i =>
    let r := buttonTick acc.1 i.1 i.2
    (r.1, acc.2 ++ r.2)) (s, [])

/-! ## Invariants and concrete instances used by the theorems -/

/-- Invariant of the weight filter: the reported weight is the median of the
buffer, except right after a sensor dropout (or at startup), when it is
forced to zero. -/
def medianInv (s : ScaleState) : Prop :=
  s.currentWeight = medianOfBuffer s.readings ∨ s.currentWeight = 0

/-- Validity of a single operation for the amended calibration-record
invariant: EEPROM loads and saves use the program's fixed base address 0. -/
def opValid : ScaleOp → Prop
  | .load addr => addr = 0
  | .save addr => addr = 0
  | _ => True

/-- A byte that is not part of a float image, so a flag comparison on it is
independent of the IEEE encoding. -/
def nonFloat (b : EByte) : Prop :=
  b = EByte.erased ∨ ∃ n, b = EByte.raw n

/-- The four bytes starting at a are the intact image of the float w. -/
def fimage (rom : ℤ → EByte) (a : ℤ) (w : ℚ) : Prop :=
  rom a = EByte.fpart w 0 ∧ rom (a + 1) = EByte.fpart w 1 ∧
  rom (a + 2) = EByte.fpart w 2 ∧ rom (a + 3) = EByte.fpart w 3

/-- Invariant of the record at base address 0 maintained by the save and
reset paths: its flag bytes are plain bytes, and when the validity byte
holds the flag value, bytes 4-7 and 8-11 are intact float images, with the
factor image holding the compiled-in default whenever the factor-validity
byte does not hold the flag value. -/
def rec0Inv (rom : ℤ → EByte) : Prop :=
  nonFloat (rom 0) ∧ nonFloat (rom 12) ∧
  (rom 0 = EByte.raw EEPROM_FLAG_VALUE →
    (∃ we, fimage rom 4 we) ∧
    ∃ f, fimage rom 8 f ∧
      (rom 12 ≠ EByte.raw EEPROM_FLAG_VALUE → f = DEFAULT_FACTOR))

/-- Strengthened induction invariant for the calibration record: the record
invariant on the live state, the remembered base address pinned at 0, and
the byte invariant on record 0. -/
def envCalibInv (e : ScaleEnv) : Prop :=
  calibRecordInv e.st ∧ e.st.eepromAddr = 0 ∧ rec0Inv e.rom

/-- Pump snapshot on entering Error in the worst case: the servo was
commanded over the kettle 600 ms ago and is still mid-travel, and the
kettle-power relay was switched on 500 ms ago (inside its cooldown). -/
def c2Pump : Pump :=
  { pumpRelay := true
    powerRelay := true
    lastPowerToggle := 1000
    servoCurrent := .moving
    servoTarget := .overKettle
    servoMoveStart := 900 }

/-- A system that just transitioned into Error while c2Pump held. -/
def c2Sys : Sys :=
  { sm := { smInit with current := some (.error .noFlow 0) }
    pump := c2Pump
    scale := scaleInit }

/-- A system mid-fill: Filling toward 800 g, pump on, servo over the
kettle, emergency-stop flag clear. -/
def c3Sys : Sys :=
  { sm := { smInit with current := some (.filling 800 300 0 true false) }
    pump :=
      { pumpInit with
          pumpRelay := true
          servoCurrent := .overKettle
          servoTarget := .overKettle }
    scale := scaleInit }

/-- A confirmed press/release cycle with held duration 54 ms: press
confirmed at t=53, release confirmed at t=107. -/
def c8Trace : List (Bool × ℕ) :=
  [(false, 0), (false, 51), (false, 52), (false, 53),
   (true, 54), (true, 105), (true, 106), (true, 107)]

/-- One full click (duration 120 ms, registered at t=173) followed by an
idle tick at t=600, past the 400 ms inter-click gap. -/
def c9Trace : List (Bool × ℕ) :=
  [(false, 0), (false, 51), (false, 52), (false, 53),
   (true, 120), (true, 171), (true, 172), (true, 173), (true, 600)]

/-- A scale reading 50 g in calibration step 2: the implausible candidate
of the claimed scenario. -/
def c6Env : ScaleEnv :=
  { st := { scaleInit with currentWeight := 50 }, rom := fun _ => EByte.erased }

/-! ## Supporting lemmas -/

theorem medianInv_init : medianInv scaleInit := Or.inr rfl

theorem medianInv_step (s : ScaleState) (i : Bool × ℤ) (h : medianInv s) :
    medianInv (scaleStep s i) := by
  rcases i with ⟨avail, raw⟩
  cases avail with
  | false => exact Or.inr rfl
  | true =>
    show medianInv (scaleUpdate s true raw).1
    unfold scaleUpdate
    by_cases hg : s.currentWeight > 0 ∧
        |convertRaw s.calibrationFactor raw - s.currentWeight| > MAX_WEIGHT_JUMP
    · simpa [hg] using h
    · simp only [Bool.not_true, Bool.false_eq_true, if_false, hg, if_neg,
        not_false_eq_true]
      exact Or.inl rfl

theorem medianInv_run (l : List (Bool × ℤ)) : medianInv (scaleRun l) := by
  have key : ∀ (t : List (Bool × ℤ)) (s : ScaleState),
      medianInv s → medianInv (t.foldl scaleStep s) := by
    intro t
    induction t with
    | nil => intro s h; exact h
    | cons i rest ih => intro s h; exact ih _ (medianInv_step s i h)
  exact key l scaleInit medianInv_init

/-! ## Claim theorems -/

/-- C1: the transition permission computed by canTransitionTo agrees with
the claimed table on every (from, to) pair, including the initial empty
state; a denied transition request leaves the state machine entirely
unchanged, and the subsequent update commit fires no enter or exit hook and
leaves the system untouched. -/
theorem c1_transition_matrix :
    (∀ (cur : Option StName) (nw : StName),
        canTransitionToName cur nw = claimAllowedTable cur nw) ∧
    (∀ (sm : SM) (d : StData),
        canTransitionTo sm d = false → transitionTo sm d = sm) ∧
    (∀ (sys : Sys) (d : StData) (now : ℕ),
        sys.sm.pending = false → canTransitionTo sys.sm d = false →
        smCommit { sys with sm := transitionTo sys.sm d } now = (sys, [])) := by
  refine ⟨?_, ?_, ?_⟩
  · intro cur nw
    rcases cur with _ | c
    · rfl
    · cases c <;> cases nw <;> rfl
  · intro sm d h
    simp [transitionTo, h]
  · intro sys d now hp h
    have ht : transitionTo sys.sm d = sys.sm := by simp [transitionTo, h]
    rw [ht]
    simp [smCommit, hp]

/-- Witness for C1 at a concrete denied pair: Error to Idle is rejected and
the machine is unchanged. -/
theorem c1_transition_matrix_witness :
    canTransitionTo { smInit with current := some (newErrorState .noFlow) }
        newIdleState = false ∧
    transitionTo { smInit with current := some (newErrorState .noFlow) }
        newIdleState
      = { smInit with current := some (newErrorState .noFlow) } :=
  ⟨by decide, c1_transition_matrix.2.1 _ _ (by decide)⟩

/-- C4: after every successful Scale::update from any reachable filter
state, the reported weight is the median (middle element after sorting) of
the five buffered samples; and on a concrete run it differs from the
arithmetic mean of those samples. -/
theorem c4_reported_weight_is_median :
    (∀ (l : List (Bool × ℤ)) (avail : Bool) (raw : ℤ),
        (scaleUpdate (scaleRun l) avail raw).2 = true →
        (scaleUpdate (scaleRun l) avail raw).1.currentWeight =
          medianOfBuffer (scaleUpdate (scaleRun l) avail raw).1.readings) ∧
    (scaleRun [(true, 2000000)]).currentWeight ≠
      arithmeticMean (scaleRun [(true, 2000000)]).readings := by
  constructor
  · intro l avail raw hsucc
    have hinv := medianInv_run l
    cases avail with
    | false => simp [scaleUpdate] at hsucc
    | true =>
      revert hsucc
      unfold scaleUpdate
      by_cases hg : (scaleRun l).currentWeight > 0 ∧
          |convertRaw (scaleRun l).calibrationFactor raw -
            (scaleRun l).currentWeight| > MAX_WEIGHT_JUMP
      · intro _
        simp only [Bool.not_true, Bool.false_eq_true, if_false, if_pos hg]
        rcases hinv with hm | h0
        · exact hm
        · exact absurd (h0 ▸ hg.1) (lt_irrefl 0)
      · intro _
        simp only [Bool.not_true, Bool.false_eq_true, if_false, if_neg hg]
  · norm_num [scaleRun, scaleStep, scaleUpdate, scaleInit, convertRaw,
      medianOfBuffer, sortBuffer, insertKey, arithmeticMean, MAX_WEIGHT_JUMP,
      DEFAULT_FACTOR, STABLE_READINGS, List.replicate, List.set, List.foldl,
      List.getD]

/-- Witness for C4: a concrete successful update whose result is the buffer
median. -/
theorem c4_reported_weight_is_median_witness :
    (scaleUpdate (scaleRun []) true 100).2 = true ∧
    (scaleUpdate (scaleRun []) true 100).1.currentWeight =
      medianOfBuffer (scaleUpdate (scaleRun []) true 100).1.readings :=
  ⟨by norm_num [scaleRun, scaleUpdate, scaleInit, convertRaw, MAX_WEIGHT_JUMP,
      DEFAULT_FACTOR],
   c4_reported_weight_is_median.1 [] true 100
     (by norm_num [scaleRun, scaleUpdate, scaleInit, convertRaw,
        MAX_WEIGHT_JUMP, DEFAULT_FACTOR])⟩

/-- C5 counterexample: at startup (filtered weight zero) a converted sample
of 840 g differs from the filtered weight by more than the 500 g max-jump
threshold, yet Scale::update does NOT leave the sample buffer unchanged: the
sample is accepted into the buffer (and update returns true). -/
theorem c5_counterexample :
    MAX_WEIGHT_JUMP <
      |convertRaw scaleInit.calibrationFactor 2000000 - scaleInit.currentWeight| ∧
    (scaleUpdate scaleInit true 2000000).2 = true ∧
    (scaleUpdate scaleInit true 2000000).1.readings ≠ scaleInit.readings := by
  refine ⟨?_, ?_, ?_⟩ <;>
    norm_num [scaleUpdate, scaleInit, convertRaw, MAX_WEIGHT_JUMP,
      DEFAULT_FACTOR, STABLE_READINGS, List.replicate, List.set,
      medianOfBuffer, sortBuffer, insertKey, List.foldl, List.getD]

/-- C5 amended: on every tick on which the current filtered weight is
positive and the newly converted sample differs from it by more than the
max-jump threshold, Scale::update leaves the state (filtered weight and
buffer) unchanged and still returns true. -/
theorem c5_outlier_rejected (s : ScaleState) (raw : ℤ)
    (hpos : 0 < s.currentWeight)
    (hjump : MAX_WEIGHT_JUMP < |convertRaw s.calibrationFactor raw - s.currentWeight|) :
    scaleUpdate s true raw = (s, true) := by
  have hg : s.currentWeight > 0 ∧
      |convertRaw s.calibrationFactor raw - s.currentWeight| > MAX_WEIGHT_JUMP :=
    ⟨hpos, hjump⟩
  unfold scaleUpdate
  simp only [Bool.not_true, Bool.false_eq_true, if_false, if_pos hg]

/-- Witness for C5 amended: a 600 g filtered weight and a zero sample. -/
theorem c5_outlier_rejected_witness :
    scaleUpdate { scaleInit with currentWeight := 600 } true 0
      = ({ scaleInit with currentWeight := 600 }, true) :=
  c5_outlier_rejected _ 0 (by norm_num [scaleInit])
    (by norm_num [convertRaw, scaleInit, MAX_WEIGHT_JUMP, DEFAULT_FACTOR])

/-- C10: whenever the filtered weight is zero the max-jump filter is
bypassed: an available sample is always accepted into the buffer (update
returns true and the converted sample is written at the buffer index), no
matter how large its jump from zero; and a tick on which the sensor is
not ready forces the reported weight to zero. -/
theorem c10_zero_weight_accepts_any_sample :
    (∀ (s : ScaleState) (raw : ℤ), s.currentWeight = 0 →
        (scaleUpdate s true raw).2 = true ∧
        (scaleUpdate s true raw).1.readings =
          s.readings.set s.readIndex (convertRaw s.calibrationFactor raw)) ∧
    (∀ (s : ScaleState) (raw : ℤ),
        (scaleUpdate s false raw).1.currentWeight = 0) := by
  constructor
  · intro s raw h0
    have hg : ¬(s.currentWeight > 0 ∧
        |convertRaw s.calibrationFactor raw - s.currentWeight| > MAX_WEIGHT_JUMP) := by
      rintro ⟨h, _⟩
      rw [h0] at h
      exact lt_irrefl 0 h
    unfold scaleUpdate
    simp only [Bool.not_true, Bool.false_eq_true, if_false, if_neg hg]
    exact ⟨trivial, trivial⟩
  · intro s raw
    rfl

/-- Witness for C10: from the startup state, a raw sample converting to
420000 g (jump of 420000 from zero) is accepted into slot 0. -/
theorem envCalibInv_init : envCalibInv scaleEnvInit := by
  refine ⟨⟨fun _ => rfl, fun _ => rfl⟩, rfl, Or.inl rfl, Or.inl rfl, ?_⟩
  intro hx
  simp [scaleEnvInit] at hx

theorem ebGet_fimage (abi : FloatABI) (rom : ℤ → EByte) (a : ℤ) (w : ℚ)
    (h : fimage rom a w) : ebGet abi rom a = w := by
  obtain ⟨h0, h1, h2, h3⟩ := h
  unfold ebGet
  rw [h0, h1, h2, h3]
  simp

theorem save0_rom (e : ScaleEnv) :
    (saveCalibrationToEEPROM e 0).rom 0 = EByte.raw EEPROM_FLAG_VALUE ∧
    fimage (saveCalibrationToEEPROM e 0).rom 4 e.st.emptyWeight ∧
    fimage (saveCalibrationToEEPROM e 0).rom 8 e.st.calibrationFactor ∧
    (saveCalibrationToEEPROM e 0).rom 12 =
      EByte.raw (if e.st.factorCalibrated then EEPROM_FLAG_VALUE else 0) := by
  unfold fimage
  exact ⟨rfl, ⟨rfl, rfl, rfl, rfl⟩, ⟨rfl, rfl, rfl, rfl⟩, rfl⟩

theorem save0_inv (e : ScaleEnv) (h : envCalibInv e) :
    envCalibInv (saveCalibrationToEEPROM e 0) := by
  obtain ⟨⟨hf, he⟩, ha0, _⟩ := h
  obtain ⟨hb0, h4, h8, hb12⟩ := save0_rom e
  refine ⟨⟨hf, he⟩, rfl, Or.inr ⟨_, hb0⟩, Or.inr ⟨_, hb12⟩, ?_⟩
  intro _
  refine ⟨⟨e.st.emptyWeight, h4⟩, e.st.calibrationFactor, h8, ?_⟩
  intro h12ne
  cases hfc : e.st.factorCalibrated with
  | true =>
    rw [hfc] at hb12
    simp only [if_pos rfl] at hb12
    exact absurd hb12 h12ne
  | false => exact hf hfc

theorem reset0_inv (e : ScaleEnv) (ha0 : e.st.eepromAddr = 0) :
    envCalibInv (resetCalibration e) := by
  unfold resetCalibration
  rw [ha0]
  rw [if_pos (by decide : (0:ℤ) ≤ 0 ∧ (0:ℤ) ≤ 508)]
  refine ⟨⟨fun _ => rfl, fun _ => rfl⟩, ha0, Or.inr ⟨0, rfl⟩, Or.inr ⟨0, rfl⟩, ?_⟩
  intro hx
  exact absurd (EByte.raw.inj hx) (by decide)

theorem load0_inv (abi : FloatABI) (e : ScaleEnv) (h : envCalibInv e) :
    envCalibInv (loadCalibrationFromEEPROM abi e 0) := by
  obtain ⟨⟨hf, he⟩, ha0, hnf0, hnf12, hflagrec⟩ := h
  unfold loadCalibrationFromEEPROM
  rw [if_neg (by decide : ¬((0:ℤ) < 0 ∨ (0:ℤ) > 508))]
  have hread0 : ebRead e.rom 0 = e.rom 0 := by
    unfold ebRead
    rw [if_pos (by decide)]
  have hread12 : ebRead e.rom (0 + 12) = e.rom 12 := by
    unfold ebRead
    rw [if_pos (by decide)]
    norm_num
  by_cases hflag : e.rom 0 = EByte.raw EEPROM_FLAG_VALUE
  · have hhit : flagHit abi (ebRead e.rom 0) = true := by
      rw [hread0, hflag]
      simp [flagHit]
    rw [if_pos hhit]
    obtain ⟨⟨we, h4⟩, f, h8, himp⟩ := hflagrec hflag
    refine ⟨⟨?_, ?_⟩, rfl, hnf0, hnf12, hflagrec⟩
    · intro hfc
      have hfc' : flagHit abi (e.rom 12) = false := by
        rw [← hread12]
        exact hfc
      have hfactor : f = DEFAULT_FACTOR := by
        rcases hnf12 with h12e | ⟨b12, h12r⟩
        · refine himp ?_
          rw [h12e]
          intro hcon
          exact EByte.noConfusion hcon
        · have hb12 : b12 ≠ EEPROM_FLAG_VALUE := by
            intro hb
            rw [h12r, hb] at hfc'
            simp [flagHit] at hfc'
          refine himp ?_
          rw [h12r]
          intro hcon
          exact hb12 (EByte.raw.inj hcon)
      show ebGetAt abi e.rom (0 + 8) e.st.calibrationFactor = DEFAULT_FACTOR
      unfold ebGetAt
      rw [if_neg (by decide)]
      rw [ebGet_fimage abi e.rom (0 + 8) f (by norm_num [fimage] at h8 ⊢; exact h8)]
      exact hfactor
    · intro hic
      simp at hic
  · have hmiss : ¬(flagHit abi (ebRead e.rom 0) = true) := by
      rw [hread0]
      rcases hnf0 with h0e | ⟨b, h0r⟩
      · rw [h0e]
        simp [flagHit]
      · rw [h0r]
        have hb : b ≠ EEPROM_FLAG_VALUE := by
          intro hbv
          rw [hbv] at h0r
          exact hflag h0r
        simp [flagHit, hb]
    rw [if_neg hmiss]
    exact ⟨⟨fun _ => rfl, fun _ => rfl⟩, rfl, hnf0, hnf12, hflagrec⟩

theorem envCalibInv_step (abi : FloatABI) (e : ScaleEnv) (op : ScaleOp)
    (hv : opValid op) (h : envCalibInv e) : envCalibInv (applyOp abi e op) := by
  obtain ⟨⟨hf, he⟩, ha0, hrec⟩ := h
  cases op with
  | load addr =>
    have ha : addr = 0 := hv
    subst ha
    exact load0_inv abi e ⟨⟨hf, he⟩, ha0, hrec⟩
  | save addr =>
    have ha : addr = 0 := hv
    subst ha
    exact save0_inv e ⟨⟨hf, he⟩, ha0, hrec⟩
  | calibEmpty w =>
    refine ⟨⟨hf, ?_⟩, ha0, hrec⟩
    intro hic
    simp [applyOp, calibrateEmpty] at hic
  | calibFactor w raw =>
    show envCalibInv (calibrateFactor e w raw)
    unfold calibrateFactor
    by_cases hw : w ≤ 0
    · rw [if_pos hw]
      exact ⟨⟨hf, he⟩, ha0, hrec⟩
    · rw [if_neg hw]
      refine ⟨⟨?_, he⟩, ha0, hrec⟩
      intro hfc
      simp at hfc
  | rstFactor =>
    exact ⟨⟨fun _ => rfl, he⟩, ha0, hrec⟩
  | rstCalibration =>
    exact reset0_inv e ha0

/-- C7 counterexample: calibrating the empty weight to 500 g and then
loading from the out-of-range EEPROM address 600 leaves the component with
the empty-weight-valid flag unset but the empty weight still 500 g, so the
claimed invariant fails on this reachable state (for any float encoding;
the invalid-address path never reads the EEPROM). -/
theorem c7_counterexample :
    (runOps abiZero [.calibEmpty 500, .load 600]).st.isCalibrated = false ∧
    (runOps abiZero [.calibEmpty 500, .load 600]).st.emptyWeight ≠ 0 := by
  refine ⟨rfl, ?_⟩
  norm_num [runOps, applyOp, calibrateEmpty, loadCalibrationFromEEPROM,
    scaleEnvInit, scaleInit]

/-- C7 amended: in every state of the Scale component reachable by
construction, calibration, reset, and EEPROM saves and loads at the fixed
base address 0 that the program actually uses (EEPROM_CALIB_ADDR), over an
initially erased EEPROM, an unset factor-valid flag implies the compiled-in
default conversion factor and an unset empty-weight-valid flag implies a
zero empty weight — and this holds for every IEEE float byte-encoding.
The restriction to one base address is necessary: because the 13-byte
records live in one shared byte array, saves at overlapping bases corrupt
a record — after calibrateFactor, save 0, save 8, load 0 the factor-valid
flag comes back unset while the conversion factor is reassembled garbage,
not the default. -/
theorem c7_calibration_record_invariant :
    (∀ (abi : FloatABI) (ops : List ScaleOp), opsUseBaseZero ops = true →
        calibRecordInv (runOps abi ops).st) ∧
    ((runOps abiZero
        [.calibFactor 1000 1000000, .save 0, .save 8, .load 0]).st.factorCalibrated
          = false ∧
     (runOps abiZero
        [.calibFactor 1000 1000000, .save 0, .save 8, .load 0]).st.calibrationFactor
          ≠ DEFAULT_FACTOR) := by
  constructor
  · intro abi ops h
    have key : ∀ (t : List ScaleOp) (e : ScaleEnv), envCalibInv e →
        opsUseBaseZero t = true → envCalibInv (t.foldl (applyOp abi) e) := by
      intro t
      induction t with
      | nil => intro e he _; exact he
      | cons op rest ih =>
        intro e he hall
        rw [opsUseBaseZero, List.all_cons, Bool.and_eq_true] at hall
        obtain ⟨hop, hrest⟩ := hall
        have hv : opValid op := by
          cases op with
          | load a =>
            show a = 0
            exact eq_of_beq hop
          | save a =>
            show a = 0
            exact eq_of_beq hop
          | calibEmpty w => trivial
          | calibFactor w r => trivial
          | rstFactor => trivial
          | rstCalibration => trivial
        exact ih _ (envCalibInv_step abi e op hv he) hrest
    exact (key ops scaleEnvInit envCalibInv_init h).1
  · constructor <;>
      norm_num [runOps, applyOp, calibrateFactor, saveCalibrationToEEPROM,
        loadCalibrationFromEEPROM, ebWrite, ebPut, ebRead, ebGet, ebGetAt,
        flagHit, scaleEnvInit, scaleInit, abiZero, EEPROM_FLAG_VALUE,
        EEPROM_SIZE, DEFAULT_FACTOR]

/-- Witness for C7 amended: a calibrate-save-reset-load round trip through
the program's base address 0 keeps the invariant, for the concrete ABI. -/
theorem c7_calibration_record_invariant_witness :
    calibRecordInv
      (runOps abiZero [.calibEmpty 500, .save 0, .rstCalibration, .load 0]).st :=
  c7_calibration_record_invariant.1 abiZero
    [.calibEmpty 500, .save 0, .rstCalibration, .load 0] (by decide)

theorem c10_zero_weight_accepts_any_sample_witness :
    (scaleUpdate scaleInit true 1000000000).2 = true ∧
    (scaleUpdate scaleInit true 1000000000).1.readings =
      scaleInit.readings.set scaleInit.readIndex
        (convertRaw scaleInit.calibrationFactor 1000000000) :=
  c10_zero_weight_accepts_any_sample.1 scaleInit 1000000000 rfl

/-- C6: in Calibrating step 2 (await placement), a confirmed press with a
candidate empty weight outside the open range (100, 5000) leaves the
sub-state at step 2, leaves the scale and EEPROM entirely unchanged, and
issues one long beep; a candidate inside the range is stored as the empty
weight, marked calibrated, persisted to EEPROM slot 0 with a valid flag,
and acknowledged with one short beep. -/
theorem c6_implausible_calibration_rejected (env : ScaleEnv) :
    (¬(100 < env.st.currentWeight ∧ env.st.currentWeight < 5000) →
       calibHandleButton .waitPlace false true env =
         (.waitPlace, true, env, [.beepLong 1, .dispCalibError, .clickReset])) ∧
    ((100 < env.st.currentWeight ∧ env.st.currentWeight < 5000) →
       (calibHandleButton .waitPlace false true env).2.2.1.st.emptyWeight
           = env.st.currentWeight ∧
       (calibHandleButton .waitPlace false true env).2.2.1.st.isCalibrated = true ∧
       (calibHandleButton .waitPlace false true env).2.2.1.rom 0 =
         EByte.raw EEPROM_FLAG_VALUE ∧
       fimage (calibHandleButton .waitPlace false true env).2.2.1.rom 4
         env.st.currentWeight ∧
       fimage (calibHandleButton .waitPlace false true env).2.2.1.rom 8
         env.st.calibrationFactor ∧
       (calibHandleButton .waitPlace false true env).2.2.1.rom 12 =
         EByte.raw (if env.st.factorCalibrated then EEPROM_FLAG_VALUE else 0) ∧
       (calibHandleButton .waitPlace false true env).2.2.2
         = [.beepShort 1, .dispCalibSuccess, .clickReset]) := by
  constructor
  · intro hw
    norm_num [calibHandleButton, hw]
  · intro hw
    norm_num [calibHandleButton, hw, saveCalibrationToEEPROM, calibrateEmpty,
      ebWrite, ebPut, fimage, EEPROM_SIZE]

/-- Witness for C6 at the claimed scenario input of 50 g: rejection with a
long beep, record unchanged, step still await-placement. -/
theorem c6_implausible_calibration_rejected_witness :
    calibHandleButton .waitPlace false true c6Env =
      (.waitPlace, true, c6Env, [.beepLong 1, .dispCalibError, .clickReset]) :=
  (c6_implausible_calibration_rejected c6Env).1
    (by norm_num [c6Env, scaleInit])

/-- C2: the Error-entry fail-safe is NOT unconditional.  With the servo
mid-travel toward the kettle and the kettle-power relay toggled 500 ms ago,
entering Error switches the pump relay off but leaves the power relay
energized (cooldown guard swallows the off request) and leaves the servo
heading for the over-kettle position, where it then settles. -/
theorem c2_error_entry_failsafe_gap :
    (stateEnter c2Sys 1500).1.pump.pumpRelay = false ∧
    (stateEnter c2Sys 1500).1.pump.powerRelay = true ∧
    (stateEnter c2Sys 1500).1.pump.servoCurrent = .moving ∧
    (stateEnter c2Sys 1500).1.pump.servoTarget = .overKettle ∧
    (pumpUpdate 2000 (stateEnter c2Sys 1500).1.pump).servoCurrent = .overKettle ∧
    currentName (stateEnter c2Sys 1500).1 = some .error := by
  decide

/-- C3 counterexample: in Filling with the emergency-stop flag clear, the
remote stop command (mode 8) does NOT set the flag: the current Filling
state still carries flag false after handleMqttCommand. -/
theorem c3_counterexample :
    fillingFlagOf c3Sys.sm.current = some false ∧
    fillingFlagOf (handleMqttCommand c3Sys 1000 true 8).1.sm.current = some false := by
  decide

theorem emergencyStop_pump_off (now : ℕ) (p : Pump) :
    (emergencyStop now p).pumpRelay = false := by
  unfold emergencyStop moveServoToIdle pumpOff
  split <;> rfl

theorem smCommit_to_idle (sys : Sys) (now : ℕ)
    (hp : sys.sm.pending = true) (hn : sys.sm.next = some newIdleState) :
    currentName (smCommit sys now).1 = some .idle ∧
    (smCommit sys now).1.pump.pumpRelay = false := by
  unfold smCommit
  rw [hp, hn]
  simp only [if_pos rfl]
  cases hcur : sys.sm.current with
  | none =>
    simp [stateEnter, newIdleState, currentName, StData.name, pumpOff]
  | some c =>
    cases c <;>
      simp [stateExit, stateEnter, newIdleState, currentName, StData.name, pumpOff]

/-- C3 amended: a remote stop command (mode 8) received while Filling does
not use the emergency-stop flag: in the very same tick it switches the pump
relay off through pump.emergencyStop, issues a triple short beep, and
requests a transition to Idle, leaving the Filling state object (and its
emergency-stop flag) untouched; the pending transition is committed at the
start of the next state-machine update, after which the state is Idle and
the pump is off.  The local long-press gesture, in contrast, is the path
that latches the emergency-stop flag (consumed by the next Filling update). -/
theorem c3_remote_stop_immediate (sys : Sys) (now now2 : ℕ) (avail : Bool)
    (t sw : ℚ) (st0 : ℕ) (ini fl : Bool)
    (hcur : sys.sm.current = some (.filling t sw st0 ini fl)) :
    (handleMqttCommand sys now avail 8).1.pump.pumpRelay = false ∧
    (handleMqttCommand sys now avail 8).1.sm.pending = true ∧
    (handleMqttCommand sys now avail 8).1.sm.next = some newIdleState ∧
    (handleMqttCommand sys now avail 8).1.sm.current = sys.sm.current ∧
    (handleMqttCommand sys now avail 8).2 = [.beepShort 3] ∧
    currentName (smCommit (handleMqttCommand sys now avail 8).1 now2).1
      = some .idle ∧
    (smCommit (handleMqttCommand sys now avail 8).1 now2).1.pump.pumpRelay
      = false ∧
    fillingHandleButton (.filling t sw st0 ini fl) true
      = (.filling t sw st0 ini true, [.beepShort 3, .clickReset]) := by
  have hcan : canTransitionTo sys.sm newIdleState = true := by
    unfold canTransitionTo
    rw [hcur]
    rfl
  have htid : toIdle sys.sm
      = { sys.sm with next := some newIdleState, pending := true } := by
    unfold toIdle transitionTo
    rw [if_pos hcan]
  have h8 : handleMqttCommand sys now avail 8 =
      ({ sys with pump := emergencyStop now sys.pump, sm := toIdle sys.sm },
        [.beepShort 3]) := by
    unfold handleMqttCommand emergencyStopFilling
    rw [hcur]
    norm_num [StData.name]
  rw [h8]
  have hp : (toIdle sys.sm).pending = true := by rw [htid]
  have hn : (toIdle sys.sm).next = some newIdleState := by rw [htid]
  have hcm := smCommit_to_idle
    { sys with pump := emergencyStop now sys.pump, sm := toIdle sys.sm } now2 hp hn
  refine ⟨emergencyStop_pump_off now sys.pump, hp, hn, ?_, rfl, hcm.1, hcm.2, rfl⟩
  rw [htid]

/-- C8 counterexample: a press confirmed at t=53 and released with a
confirmed release at t=107 is a completed press/release cycle of duration
54 ms, inside [0, longThreshold), yet the click counter is NOT incremented
(54 ms is below the 2 x debounce noise floor). -/
theorem c8_counterexample :
    (runButton btnInit (c8Trace.take 4)).1.pressStartTime = 53 ∧
    (runButton btnInit (c8Trace.take 4)).1.lastStableState = false ∧
    (runButton btnInit c8Trace).1.lastStableState = true ∧
    (runButton btnInit c8Trace).1.pressStartTime = 0 ∧
    107 - 53 < LONG_PRESS_TIME ∧
    (runButton btnInit c8Trace).1.clickCount = 0 := by
  decide

/-- C8 amended: a confirmed press/release cycle increments the click
counter by exactly 1 when its held duration lies strictly between twice the
debounce interval and the long-press threshold; a confirmed cycle at or
below twice the debounce interval is discarded as contact noise and leaves
the counter untouched.  The button state is given by its fields: level
already HIGH and debounced, confirmations one short of saturation or more,
press currently latched. -/
theorem c8_click_window
    (ldt sst scc : ℕ) (lsB : Bool) (pst cc lct : ℕ)
    (lrp vlr hact : Bool) (hstt : ℕ) (now : ℕ)
    (hdeb : DEBOUNCE_TIME < now - ldt)
    (hcnt : HYSTERESIS_COUNT - 1 ≤ scc)
    (hpress : pst ≠ 0) :
    (DEBOUNCE_TIME * 2 < now - pst ∧ now - pst < LONG_PRESS_TIME →
      (buttonTick ⟨true, ldt, false, sst, scc, lsB, pst, cc, lct, lrp, vlr,
        hact, hstt⟩ true now).1.clickCount = cc + 1) ∧
    (cc = 0 ∧ now - pst ≤ DEBOUNCE_TIME * 2 →
      (buttonTick ⟨true, ldt, false, sst, scc, lsB, pst, cc, lct, lrp, vlr,
        hact, hstt⟩ true now).1.clickCount = 0) := by
  simp only [DEBOUNCE_TIME] at hdeb
  simp only [HYSTERESIS_COUNT] at hcnt
  constructor
  · rintro ⟨h1, h2⟩
    simp only [DEBOUNCE_TIME, LONG_PRESS_TIME] at h1 h2
    simp [buttonTick, btnOnRelease, DEBOUNCE_TIME, LONG_PRESS_TIME,
      HYSTERESIS_COUNT, DOUBLE_CLICK_TIME]
    split_ifs <;> first
      | rfl
      | omega
      | (simp_all
         omega)
      | simp_all
  · rintro ⟨h0, h2⟩
    subst h0
    simp only [DEBOUNCE_TIME] at h2
    simp [buttonTick, btnOnRelease, DEBOUNCE_TIME, LONG_PRESS_TIME,
      HYSTERESIS_COUNT, DOUBLE_CLICK_TIME]
    split_ifs <;> first
      | rfl
      | omega
      | (simp_all
         omega)
      | simp_all

/-- Witness for C8 amended: a 150 ms cycle yields exactly one click. -/
theorem c8_click_window_witness :
    (buttonTick ⟨true, 100, false, 0, 3, true, 50, 0, 0, false, false, false, 0⟩
      true 200).1.clickCount = 0 + 1 :=
  (c8_click_window 100 0 3 true 50 0 0 false false false 0 200
      (by decide) (by decide) (by decide)).1 ⟨by decide, by decide⟩

/-- C9 counterexample: after a finalized single-click run (the inter-click
timeout fires at t=600 and reports 1 click through the multi-click
callback), isSingleClick does NOT return true: finalization zeroes the
counter, so the getter reads false. -/
theorem c9_counterexample :
    Eff.multiClick 1 ∈ (runButton btnInit c9Trace).2 ∧
    isSingleClick (runButton btnInit c9Trace).1 = false := by
  decide

/-- C9 amended: the tri-state getters expose the LIVE accumulated click
count (true exactly while the counter reads 1/2/3, i.e. before the run is
finalized); when the inter-click gap elapses on a quiescent tick, the
timeout finalizes the run by reporting the count to the multi-click
callback and resetting the counter to zero, after which all three getters
return false; resetClicks also zeroes the counter. -/
theorem c9_getters_report_live_count :
    (∀ s : BtnState,
        (isSingleClick s = true ↔ s.clickCount = 1) ∧
        (isDoubleClick s = true ↔ s.clickCount = 2) ∧
        (isTripleClick s = true ↔ s.clickCount = 3)) ∧
    (∀ (r : Bool) (ldt sst scc : ℕ) (lsB : Bool) (pst cc lct : ℕ)
        (lrp vlr hact : Bool) (hstt : ℕ) (now : ℕ),
        cc ≠ 0 → DOUBLE_CLICK_TIME < now - lct →
        (buttonTick ⟨r, ldt, r, sst, scc, lsB, pst, cc, lct, lrp, vlr,
            hact, hstt⟩ r now).1.clickCount = 0 ∧
        (buttonTick ⟨r, ldt, r, sst, scc, lsB, pst, cc, lct, lrp, vlr,
            hact, hstt⟩ r now).2 = [.multiClick cc] ∧
        isSingleClick (buttonTick ⟨r, ldt, r, sst, scc, lsB, pst, cc, lct,
            lrp, vlr, hact, hstt⟩ r now).1 = false) ∧
    (∀ s : BtnState, (resetClicks s).clickCount = 0) := by
  refine ⟨?_, ?_, fun s => rfl⟩
  · intro s
    refine ⟨?_, ?_, ?_⟩ <;> simp [isSingleClick, isDoubleClick, isTripleClick]
  · intro r ldt sst scc lsB pst cc lct lrp vlr hact hstt now hcc hgap
    simp only [DOUBLE_CLICK_TIME] at hgap
    simp [buttonTick, btnOnRelease, isSingleClick, DEBOUNCE_TIME,
      LONG_PRESS_TIME, HYSTERESIS_COUNT, DOUBLE_CLICK_TIME]
    split_ifs <;> first
      | (refine ⟨rfl, rfl, rfl⟩)
      | omega
      | (simp_all
         omega)
      | simp_all

/-- Witness for C9 amended: the timeout tick at t=600 after one click. -/
theorem c9_getters_report_live_count_witness :
    (buttonTick ⟨true, 120, true, 107, 3, true, 0, 1, 173, false, false, false, 0⟩
        true 600).1.clickCount = 0 ∧
    (buttonTick ⟨true, 120, true, 107, 3, true, 0, 1, 173, false, false, false, 0⟩
        true 600).2 = [.multiClick 1] ∧
    isSingleClick (buttonTick ⟨true, 120, true, 107, 3, true, 0, 1, 173, false,
        false, false, 0⟩ true 600).1 = false :=
  c9_getters_report_live_count.2.1 true 120 107 3 true 0 1 173 false false false 0
    600 (by decide) (by decide)

/-- Witness for C3 amended, at the concrete mid-fill system. -/
theorem c3_remote_stop_immediate_witness :
    (handleMqttCommand c3Sys 1000 true 8).1.pump.pumpRelay = false ∧
    (handleMqttCommand c3Sys 1000 true 8).1.sm.pending = true ∧
    (handleMqttCommand c3Sys 1000 true 8).1.sm.next = some newIdleState ∧
    (handleMqttCommand c3Sys 1000 true 8).1.sm.current = c3Sys.sm.current ∧
    (handleMqttCommand c3Sys 1000 true 8).2 = [.beepShort 3] ∧
    currentName (smCommit (handleMqttCommand c3Sys 1000 true 8).1 2000).1
      = some .idle ∧
    (smCommit (handleMqttCommand c3Sys 1000 true 8).1 2000).1.pump.pumpRelay
      = false ∧
    fillingHandleButton (.filling 800 300 0 true false) true
      = (.filling 800 300 0 true true, [.beepShort 3, .clickReset]) :=
  c3_remote_stop_immediate c3Sys 1000 2000 true 800 300 0 true false rfl

end SmartPump
